import Mathlib

/-!
Verification of the `fexp` repository (src/fexp/writers.py and
src/fexp/plotting.py) against its natural-language specification.

The Python functions are shallowly embedded as executable Lean
definitions.  External-library behaviour (SimpleITK, numpy, pathlib,
matplotlib) is modelled only to the extent the embedded code observes it,
with a comment at each such point.  Machine floats do not occur in any of
the verified properties; real-valued data (spacings, directions, overlay
values) is modelled as `Rat`.
-/

namespace Fexp

/-! ## String primitives

Python string operations used by the sources, implemented by structural
recursion on `List Char` so that all evaluations reduce in the kernel. -/

/-- `isLeadingOf pat s` holds when the character list `pat` is an initial
segment of `s` (Python `s.startswith(pat)` on the underlying lists). -/
def isLeadingOf : List Char → List Char → Bool
  | [], _ => true
  | _ :: _, [] => false
  | p :: ps, c :: cs => p = c && isLeadingOf ps cs

/-- `listContains s pat` holds when `pat` occurs as a contiguous sublist of
`s` (Python substring test `pat in s`). -/
def listContains : List Char → List Char → Bool
  | [], pat => pat.isEmpty
  | c :: cs, pat => isLeadingOf pat (c :: cs) || listContains cs pat

/-- Python substring test `pat in s`. -/
def containsStr (s pat : String) : Bool :=
  listContains s.toList pat.toList

/-- Python `s.startswith(pat)`. -/
def strStartsWith (s pat : String) : Bool :=
  isLeadingOf pat.toList s.toList

/-- Python `s.endswith(pat)`. -/
def strEndsWith (s pat : String) : Bool :=
  isLeadingOf pat.toList.reverse s.toList.reverse

/-- Split a character list on a separator character; the result always has
one more element than the number of separator occurrences, exactly like
Python `s.split(sep)` for a one-character `sep`. -/
def splitOnChar (sep : Char) : List Char → List (List Char)
  | [] => [[]]
  | c :: rest =>
    let r := splitOnChar sep rest
    if c = sep then [] :: r
    else
      match r with
      | [] => [[c]]
      | h :: t => (c :: h) :: t

/-- Python `s.split(sep)` for a one-character separator. -/
def pySplit (s : String) (sep : Char) : List String :=
  (splitOnChar sep s.toList).map String.mk

/-- Index of the last occurrence of `c` (Python `s.rfind(c)`, as an
`Option`). -/
def lastIdxOf (c : Char) : List Char → Option Nat
  | [] => none
  | a :: rest =>
    match lastIdxOf c rest with
    | some i => some (i + 1)
    | none => if a = c then some 0 else none

/-- Final path component (`pathlib.PurePath.name` for the simple relative
paths that occur here; `expanduser` is the identity on such paths). -/
def pathName (p : String) : String :=
  String.mk ((splitOnChar '/' p.toList).getLastD [])

/-- `pathlib.PurePath.suffix`: the substring of the name from its last dot
on, provided that dot is neither the first nor the last character of the
name; `""` otherwise.  In particular the suffix of `x.nii.gz` is `.gz`. -/
def pathSuffix (p : String) : String :=
  match lastIdxOf '.' (pathName p).toList with
  | none => ""
  | some i =>
    if 0 < i ∧ i + 1 < (pathName p).toList.length then String.mk ((pathName p).toList.drop i)
    else ""

/-- Python `int(s)` restricted to the plain digit strings that arise from
the `IMG-<series>-<slice>.dcm` filename pattern; `none` models the
`ValueError` Python raises on any other string.  (Sign and whitespace
forms of `int` never occur in the verified properties.) -/
def pyInt (s : String) : Option Nat :=
  if s.toList.isEmpty then none
  else
    s.toList.foldl
      (fun acc c =>
        match acc with
        | some n => if c.isDigit then some (n * 10 + (c.toNat - 48)) else none
        | none => none)
      (some 0)

/-- Python format specifier `03d`: decimal representation left-padded with
zeros to at least three characters. -/
def fmt03 (n : Nat) : String :=
  let s := toString n
  if s.length < 3 then String.mk (List.replicate (3 - s.length) '0') ++ s else s

/-- Python `sep.join(xs)`. -/
def joinSep (sep : String) : List String → String
  | [] => ""
  | [x] => x
  | x :: y :: xs => x ++ sep ++ joinSep sep (y :: xs)

/-! ## Data model for `write_image` (src/fexp/writers.py)

The pixel contents of the numpy array never influence any verified
property, so an array is represented by its shape.  A SimpleITK image is
represented by the fields the embedded code reads or writes. -/

/-- The `metadata` dictionary of writers.py.  `spacing` is the mandatory
key read unconditionally at writers.py:44; the remaining recognized keys
(`orig_spacing`, `origin`, `direction`, `series_description`, `modality`)
are optional, matching the `in`/`get` accesses in the source.  A dict that
is present but lacks the `spacing` key (a `KeyError` in Python) does not
occur in any verified property and is not representable. -/
structure Metadata where
  spacing : List Rat
  orig_spacing : Option (List Rat)
  origin : Option (List Rat)
  direction : Option (List Rat)
  series_description : Option String
  modality : Option String
deriving Repr, DecidableEq

/-- A SimpleITK image as observed by writers.py: the numpy shape it was
built from (`sitk.GetImageFromArray` keeps the array rank; the numpy axis
order `(z, y, x)` maps to the sitk size `(x, y, z)`), its spacing, and the
optional origin/direction (`none` = the library defaults: zero origin,
identity direction). -/
structure SitkImage where
  shape : List Nat
  spacing : List Rat
  origin : Option (List Rat)
  direction : Option (List Rat)
deriving Repr, DecidableEq

/-- `Image.GetDepth()`: the z-extent, which for an image built by
`GetImageFromArray` from a 3-D numpy array is the first numpy axis; a 2-D
image has depth 0. -/
def SitkImage.getDepth (img : SitkImage) : Nat :=
  if 3 ≤ img.shape.length then img.shape.headD 0 else 0

/-- Row-major flattening of the d-by-d identity matrix: the default
direction cosines of a SimpleITK image. -/
def identityDirection (d : Nat) : List Rat :=
  ((List.range d).map (fun i => (List.range d).map (fun j => if i = j then (1 : Rat) else 0))).flatten

/-- `Image.GetDirection()` (writers.py:77). -/
def SitkImage.getDirection (img : SitkImage) : List Rat :=
  img.direction.getD (identityDirection img.shape.length)

/-- `Image.TransformIndexToPhysicalPoint(index)`:
`physical[i] = origin[i] + sum_j direction[i][j] * spacing[j] * index[j]`
(used at writers.py:108 with index `(0, 0, idx)`). -/
def SitkImage.transformIndexToPhysicalPoint (img : SitkImage) (index : List Nat) : List Rat :=
  let d := img.shape.length
  let dir := img.getDirection
  let orig := img.origin.getD (List.replicate d 0)
  (List.range d).map (fun i =>
    orig.getD i 0 +
      (List.range d).foldl
        (fun acc j => acc + dir.getD (i * d + j) 0 * img.spacing.getD j 0 * (index.getD j 0 : Nat)) 0)

/-- Python exception kinds raised by `write_image` (directly or via the
libraries it calls). -/
inductive PyErr
  | typeError (msg : String)
  | keyError (msg : String)
  | valueError (msg : String)
  | runtimeError (msg : String)
deriving Repr, DecidableEq

/-- Outcome of the external call `sitk.WriteImage` (writers.py:57): it
either succeeds or raises a `RuntimeError` carrying a message.  The
verified properties treat this outcome as an input of the model. -/
inductive CodecOutcome
  | success
  | raised (msg : String)
deriving Repr, DecidableEq

/-- One `.dcm` file produced by the DICOM-series loop: its file name
inside the destination directory and the metadata tags set on the slice.
For a single-file write the entry carries the file path and no tags (the
tag encoding is internal to the codec there). -/
structure SliceFile where
  name : String
  tags : List (String × String)
deriving Repr, DecidableEq

/-- Result of a `write_image` call: the exception it raises (`none` = the
function returns normally) and the files it has created. -/
structure WriteResult where
  error : Option PyErr
  filesWritten : List SliceFile
deriving Repr, DecidableEq

/-! ## Destination resolution and the series-number scan -/

/-- writers.py:41. -/
def possible_exts : List String := [".nrrd", ".mhd", ".mha", ".nii", ".nii.gz", ".dcm"]

/-- Embeds writers.py:55: `any([_ in filepath.suffix for _ in possible_exts])`
— each candidate extension is tested as a *substring* of the final pathlib
suffix of the destination. -/
def extMatch (filepath : String) : Bool :=
  possible_exts.any (fun e => containsStr (pathSuffix filepath) e)

/-- The three-way branch of writers.py:55 / 66 / 114. -/
inductive Dest
  | singleFile
  | dicomSeries
  | invalid
deriving Repr, DecidableEq

/-- Embeds the `if` / `elif filepath.is_dir()` / `else` dispatch of
writers.py:55,66,114. -/
def resolveDestination (filepath : String) (isDir : Bool) : Dest :=
  if extMatch filepath then .singleFile
  else if isDir then .dicomSeries
  else .invalid

/-- Embeds writers.py:57, the compression argument of `sitk.WriteImage`:
`True if filepath.suffix == 'nii.gz' else compression`.  (A pathlib suffix
is either empty or begins with a dot, so the comparison with the dotless
literal is never true.) -/
def compressionFlag (filepath : String) (compression : Bool) : Bool :=
  if pathSuffix filepath = "nii.gz" then true else compression

/-- Embeds the `except RuntimeError` block of writers.py:58-64 applied to
the message of the raised error.  `some m` means `write_image` re-raises a
`RuntimeError` with message `m`; `none` means the branch falls through and
the exception is swallowed (the function returns normally). -/
def handleWriteError (msg filepath : String) : Option String :=
  if strStartsWith msg "Exception thrown in SimpleITK WriteImage" then
    if containsStr msg ("Write: Error writing " ++ filepath) then
      some ("Cannot write to " ++ filepath ++ ".")
    else none
  else some msg

/-- The `glob(os.path.join(filepath, "IMG-*.dcm"))` of writers.py:72:
directory entries matching the pattern, joined with the directory path.
`dirFiles` is the list of file names in the destination directory. -/
def globImgDcm (filepath : String) (dirFiles : List String) : List String :=
  (dirFiles.filter (fun f => strStartsWith f "IMG-" && strEndsWith f ".dcm")).map
    (fun f => filepath ++ "/" ++ f)

/-- `int(_.split("-")[1])` for one glob result (writers.py:72):
the second `-`-separated component of the joined path.  For a directory
path free of `-` and a well-formed name `IMG-sss-nnn.dcm` this is the
series number `sss`. -/
def seriesOfPath (path : String) : Option Nat :=
  pyInt ((pySplit path '-').getD 1 "")

/-- The list comprehension of writers.py:72; `none` models the
`ValueError` Python `int` raises when some matching name does not parse. -/
def series_in_directory (filepath : String) (dirFiles : List String) : Option (List Nat) :=
  let rec parseAll : List String → Option (List Nat)
    | [] => some []
    | p :: rest =>
      match seriesOfPath p, parseAll rest with
      | some n, some l => some (n :: l)
      | _, _ => none
  parseAll (globImgDcm filepath dirFiles)

/-- Embeds writers.py:73:
`curr_series = 0 if not series_in_directory else max(series_in_directory)`.
Note the absence of any increment. -/
def curr_series (filepath : String) (dirFiles : List String) : Option Nat :=
  (series_in_directory filepath dirFiles).map
    (fun l => if l.isEmpty then 0 else l.foldl max 0)

/-! ## DICOM tag construction and the slice loop -/

/-- Modelled from the spec: `DICOM_MODALITY_TAG` is imported from
`fexp/readers.py`, which is not among the provided sources; spec section 6
identifies it as the DICOM Modality tag (0008,0060). -/
def DICOM_MODALITY_TAG : String := "0008|0060"

/-- Embeds writers.py:78-92 (`series_tag_values`).  `modTime`/`modDate`
are the `time.strftime` results of writers.py:75-76 (the ambient clock,
fixed for the call in this model). -/
def series_tag_values (modTime modDate : String) (direction : List Rat)
    (md : Metadata) (currSeries : Nat) : List (String × String) :=
  [("0008|0031", modTime),
   ("0008|0021", modDate),
   ("0008|0008", "DERIVED\\SECONDARY"),
   ("0020|000e", "1.2.826.0.1.3680043.2.1125." ++ modDate ++ ".1" ++ modTime),
   ("0020|0037", joinSep "\\"
      (([0, 3, 6, 1, 4, 7].map (fun i => direction.getD i 0)).map (fun q => toString q))),
   ("0008|103e", md.series_description.getD ("fexp generated number: " ++ toString currSeries))] ++
  (match md.modality with
   | some m => [(DICOM_MODALITY_TAG, m)]
   | none => [])

/-- Embeds writers.py:109: `image_slice.SetMetaData("0020|0013", str(idx))`
— the Instance Number is the *unpadded* decimal string. -/
def instanceNumberTagValue (idx : Nat) : String := toString idx

/-- Embeds the per-slice tags of writers.py:105-109.  The Instance
Creation Date/Time call `time.strftime` again; in this model the clock is
the fixed instant `modDate`/`modTime`. -/
def sliceSpecificTags (modTime modDate : String) (img : SitkImage) (idx : Nat) :
    List (String × String) :=
  [("0008|0012", modDate),
   ("0008|0013", modTime),
   ("0020|0032", joinSep "\\"
      ((img.transformIndexToPhysicalPoint [0, 0, idx]).map (fun q => toString q))),
   ("0020|0013", instanceNumberTagValue idx)]

/-- Embeds the slice loop of writers.py:99-113: one `.dcm` file per
`idx in range(sitk_image.GetDepth())`, named
`IMG-<series:03d>-<idx:03d>.dcm`, carrying the series tags followed by the
slice-specific tags.  (`writer.SetUseCompression` affects only the pixel
encoding, not the names or tags, and each `writer.Execute` is assumed to
succeed.) -/
def writeDicomSlices (modTime modDate : String) (img : SitkImage) (md : Metadata)
    (currSeries : Nat) : List SliceFile :=
  (List.range img.getDepth).map (fun idx =>
    { name := "IMG-" ++ fmt03 currSeries ++ "-" ++ fmt03 idx ++ ".dcm",
      tags := series_tag_values modTime modDate img.getDirection md currSeries ++
        sliceSpecificTags modTime modDate img idx })

/-! ## The full `write_image` pipeline -/

/-- Embeds `write_image` (writers.py:17-115), step for step in source
order.  Inputs standing in for the environment:
* `resampleShape` — the effect of `resample_sitk_image` (fexp/readers.py,
  not among the provided sources) on the voxel grid; modelled from the
  spec: resample to `orig_spacing`, spacing reset to the resampled value.
  The `resample` argument is modelled as a Bool (Python passes a truthy
  interpolator name).
* `codec` — the outcome of the external `sitk.WriteImage` call.
* `modTime`, `modDate` — the ambient `time.strftime` values.
* `dataShape` — the numpy shape of `data` (pixel values are irrelevant to
  every verified property).
* `isDir` — `filepath.is_dir()`; `dirFiles` — the names in that directory.

External-library failure points are modelled where the pipeline can stop:
`sitk.GetImageFromArray` (writers.py:42) supports ranks 2..5 and raises
otherwise, and `SetSpacing` (writers.py:44) raises when the spacing length
differs from the image dimension. -/
def write_image (resampleShape : List Nat → List Nat) (codec : CodecOutcome)
    (modTime modDate : String) (dataShape : List Nat) (filepath : String)
    (isDir : Bool) (dirFiles : List String) (_compression : Bool)
    (metadata : Option Metadata) (resample : Bool) : WriteResult :=
  -- writers.py:42: sitk.GetImageFromArray(data)
  if dataShape.length < 2 ∨ 5 < dataShape.length then
    ⟨some (.runtimeError "GetImageFromArray: unsupported image dimension"), []⟩
  else
    -- writers.py:44: sitk_image.SetSpacing(metadata["spacing"]) — a None
    -- metadata is not subscriptable.
    match metadata with
    | none => ⟨some (.typeError "NoneType object is not subscriptable"), []⟩
    | some md =>
      if md.spacing.length ≠ dataShape.length then
        ⟨some (.runtimeError "SetSpacing: spacing length does not match image dimension"), []⟩
      else
        -- writers.py:46-47: optional resampling (short-circuit: the
        -- orig_spacing lookup only happens when resample is truthy).
        let afterResample : Except PyErr SitkImage :=
          if resample then
            match md.orig_spacing with
            | none => .error (.keyError "orig_spacing")
            | some os =>
              if os ≠ md.spacing then
                .ok { shape := resampleShape dataShape, spacing := os,
                      origin := none, direction := none }
              else
                .ok { shape := dataShape, spacing := md.spacing,
                      origin := none, direction := none }
          else
            .ok { shape := dataShape, spacing := md.spacing,
                  origin := none, direction := none }
        match afterResample with
        | .error e => ⟨some e, []⟩
        | .ok img0 =>
          -- writers.py:49-53: origin/direction when present (the
          -- `if metadata:` guard is always truthy here, the spacing
          -- lookup having succeeded on this dict).
          let img : SitkImage := { img0 with origin := md.origin, direction := md.direction }
          match resolveDestination filepath isDir with
          | .singleFile =>
            -- writers.py:56-64 (the compression argument of line 57 is
            -- `compressionFlag filepath compression`).
            match codec with
            | .success => ⟨none, [{ name := filepath, tags := [] }]⟩
            | .raised msg =>
              match handleWriteError msg filepath with
              | some m => ⟨some (.runtimeError m), []⟩
              | none => ⟨none, []⟩   -- exception swallowed: normal return
          | .dicomSeries =>
            -- writers.py:69-70: validation against data.ndim.
            if dataShape.length ≠ 3 then
              ⟨some (.valueError
                ("For dicom series, only 3D data is supported. Got " ++
                  toString dataShape.length ++ ".")), []⟩
            else
              match curr_series filepath dirFiles with
              | none => ⟨some (.valueError "invalid literal for int() with base 10"), []⟩
              | some cs => ⟨none, writeDicomSlices modTime modDate img md cs⟩
          | .invalid =>
            -- writers.py:115 (the Python message interpolates the
            -- extension list with repr quoting; rendered here without
            -- the quotes).
            ⟨some (.valueError
              "Filename extension has to be one of [.nrrd, .mhd, .mha, .nii, .nii.gz, .dcm] or a directory."), []⟩

/-! ## Plotting model (src/fexp/plotting.py)

Rendering is a draw call against matplotlib; the verified properties
concern the array-level preprocessing, so an image is represented by its
shape and an overlay by its list of values. -/

/-- Embeds the channel normalization of plotting.py:73-77: a 3-D image
with a trailing singleton axis is sliced to `image[..., 0]`; otherwise,
one with a leading singleton axis is sliced to `image[0, ...]`. -/
def plot2d_channelSqueeze (shape : List Nat) : List Nat :=
  if shape.length = 3 then
    if shape.getLastD 0 = 1 then shape.dropLast
    else if shape.headD 0 = 1 then shape.tail
    else shape
  else shape

/-- Embeds plotting.py:72-80: `cmap` starts as `None` and becomes
`"gray"` exactly when the (possibly squeezed) image passed to `imshow` is
2-D. -/
def plot2d_cmap (shape : List Nat) : Option String :=
  if (plot2d_channelSqueeze shape).length = 2 then some "gray" else none

/-- `numpy.ma.masked_where(cond, xs)`: entries where the condition holds
become masked (`none`), i.e. transparent under `imshow`. -/
def masked_where (cond : List Bool) (xs : List Rat) : List (Option Rat) :=
  List.zipWith (fun c x => if c then none else some x) cond xs

/-- Embeds `add_2d_overlay` (plotting.py:166-169) at the array level: the
per-pixel values handed to `imshow`, with `none` = masked/transparent.
Python's `if threshold:` is float truthiness, i.e. `threshold ≠ 0`
(overlay values are modelled as `Rat`; float NaN does not occur in any
verified property).  The comparison `overlay < threshold` is the
elementwise numpy broadcast. -/
def add_2d_overlay (threshold : Rat) (overlay : List Rat) : List (Option Rat) :=
  if threshold ≠ 0 then
    masked_where (overlay.map (fun x => decide (x < threshold))) overlay
  else
    overlay.map some

/-! ## Sample inputs shared by concrete evaluations -/

/-- A minimal metadata dictionary with a 3-D spacing. -/
def sampleMeta3 : Metadata := ⟨[1, 1, 1], none, none, none, none, none⟩

/-- A minimal metadata dictionary with a 2-D spacing. -/
def sampleMeta2 : Metadata := ⟨[1, 1], none, none, none, none, none⟩

/-! ## Helper lemmas -/

/-- `lastIdxOf` returns an in-range index pointing at the sought
character. -/
theorem lastIdxOf_spec (c : Char) :
    ∀ (cs : List Char) (i : Nat), lastIdxOf c cs = some i →
      i < cs.length ∧ cs.getD i ' ' = c := by
  intro cs
  induction cs with
  | nil => intro i h; simp [lastIdxOf] at h
  | cons a rest ih =>
    intro i h
    unfold lastIdxOf at h
    cases hrec : lastIdxOf c rest with
    | some j =>
      rw [hrec] at h
      obtain rfl : j + 1 = i := by simpa using h
      obtain ⟨hlt, hget⟩ := ih j hrec
      exact ⟨by simpa using Nat.succ_lt_succ hlt, by simpa using hget⟩
    | none =>
      rw [hrec] at h
      by_cases hac : a = c
      · simp [hac] at h
        obtain rfl : 0 = i := h
        exact ⟨by simp, by simpa using hac⟩
      · simp [hac] at h

/-- A nonempty pathlib suffix always begins with a dot; in particular it
never equals the dotless literal `"nii.gz"` compared against at
writers.py:57. -/
theorem pathSuffix_ne_niigz (p : String) : pathSuffix p ≠ "nii.gz" := by
  unfold pathSuffix
  set cs := (pathName p).toList with hcs
  cases hlast : lastIdxOf '.' cs with
  | none => exact (by decide : ("" : String) ≠ "nii.gz")
  | some i =>
    dsimp only
    by_cases hrange : 0 < i ∧ i + 1 < cs.length
    · rw [if_pos hrange]
      intro heq
      obtain ⟨hlt, hget⟩ := lastIdxOf_spec '.' cs i hlast
      have hdata : cs.drop i = "nii.gz".toList := congrArg String.toList heq
      have hdrop : cs.drop i = cs[i] :: cs.drop (i + 1) :=
        List.drop_eq_getElem_cons hlt
      have hlit : "nii.gz".toList = 'n' :: "ii.gz".toList := rfl
      rw [hdrop, hlit] at hdata
      injection hdata with hhead htail
      have hdot : cs[i] = '.' := by
        have hgd := List.getD_eq_getElem cs ' ' hlt
        rw [← hgd, hget]
      rw [hdot] at hhead
      exact absurd hhead (by decide)
    · rw [if_neg hrange]
      simp

/-! ## Claim theorems -/

/-- Claim C1 (code bug): the spec says the series number for a new write
is the maximum found among existing `IMG-<series>-<slice>.dcm` files plus
one, so a second write into the same directory uses series 001 and leaves
the 000 files untouched.  The code (writers.py:73) takes the bare maximum
without incrementing: a directory already holding `IMG-000-000.dcm` yields
`curr_series = 0`, not 1, and writing a one-slice volume there produces
the very name `IMG-000-000.dcm` again, overwriting the prior series. -/
theorem C1_series_number_not_incremented :
    curr_series "out" ["IMG-000-000.dcm"] = some 0 ∧
    curr_series "out" ["IMG-000-000.dcm"] ≠ some 1 ∧
    (write_image id .success "120000" "20260101" [1, 2, 2] "out" true
        ["IMG-000-000.dcm"] true (some sampleMeta3) false).filesWritten.map SliceFile.name =
      ["IMG-000-000.dcm"] ∧
    curr_series "out" [] = some 0 := by decide

/-- Claim C2 counterexample: the claim says a path ending in `.nii.gz` is
written as a single file and any path with an unrecognized extension
raises the invalid-destination error.  The extension test of writers.py:55
checks each candidate as a substring of the final pathlib suffix, which
for `out.nii.gz` is `.gz`: such a destination falls through to the
invalid-destination error.  Conversely `out.dcm` — an extension absent
from the claim's list — is accepted as a single-file write. -/
theorem C2_counterexample :
    pathSuffix "out.nii.gz" = ".gz" ∧
    extMatch "out.nii.gz" = false ∧
    resolveDestination "out.nii.gz" false = .invalid ∧
    resolveDestination "out.dcm" false = .singleFile := by decide

/-- Claim C2 as amended: a single file is written exactly when one of
`.nrrd .mhd .mha .nii .nii.gz .dcm` occurs as a substring of the final
pathlib suffix of the destination (so `x.nii.gz`, whose final suffix is
`.gz`, does not match, while `x.dcm` does); otherwise an existing
directory receives a DICOM series; otherwise the invalid-destination
`ValueError` is raised and nothing is written. -/
theorem C2_amended_destination_resolution (rs : List Nat → List Nat) (codec : CodecOutcome)
    (mt mdd : String) (shape : List Nat) (fp : String) (isDir : Bool)
    (dirFiles : List String) (comp : Bool) (md : Metadata)
    (h2 : 2 ≤ shape.length) (h5 : shape.length ≤ 5)
    (hsp : md.spacing.length = shape.length) :
    (extMatch fp = true → resolveDestination fp isDir = .singleFile) ∧
    (extMatch fp = false → isDir = true → resolveDestination fp isDir = .dicomSeries) ∧
    (extMatch fp = false → isDir = false →
      write_image rs codec mt mdd shape fp isDir dirFiles comp (some md) false =
        ⟨some (.valueError
          "Filename extension has to be one of [.nrrd, .mhd, .mha, .nii, .nii.gz, .dcm] or a directory."),
         []⟩) := by
  refine ⟨fun he => by simp [resolveDestination, he],
          fun he hd => by simp [resolveDestination, he, hd], fun he hd => ?_⟩
  have hg : ¬(shape.length < 2 ∨ 5 < shape.length) := by omega
  subst hd
  simp [write_image, hg, hsp, resolveDestination, he]

/-- Claim C2 amended, witness: concrete instance for the invalid branch
(`out.txt`, not a directory). -/
theorem C2_amended_witness :
    (extMatch "out.txt" = false ∧ 2 ≤ ([2, 2] : List Nat).length ∧
      ([2, 2] : List Nat).length ≤ 5 ∧
      sampleMeta2.spacing.length = ([2, 2] : List Nat).length) ∧
    write_image id .success "120000" "20260101" [2, 2] "out.txt" false [] true
        (some sampleMeta2) false =
      ⟨some (.valueError
        "Filename extension has to be one of [.nrrd, .mhd, .mha, .nii, .nii.gz, .dcm] or a directory."),
       []⟩ :=
  ⟨by decide,
   (C2_amended_destination_resolution id .success "120000" "20260101" [2, 2] "out.txt" false
      [] true sampleMeta2 (by decide) (by decide) (by decide)).2.2 (by decide) rfl⟩

/-- Claim C3 (code bug): the claim (and spec) say every codec error other
than the destination-unwritable one is propagated with its original
message, no codec error being silently swallowed.  The `except` block of
writers.py:58-64 re-raises only when the message does NOT start with
`Exception thrown in SimpleITK WriteImage` (original message) or when it
both starts with that prefix and contains `Write: Error writing <path>`
(translated message); a SimpleITK message without the latter marker is
silently swallowed and `write_image` returns normally with nothing
written. -/
theorem C3_codec_error_swallowed :
    handleWriteError
        "Exception thrown in SimpleITK WriteImage: itk ERROR: could not create IO object"
        "out.nrrd" = none ∧
    write_image id
        (.raised "Exception thrown in SimpleITK WriteImage: itk ERROR: could not create IO object")
        "120000" "20260101" [2, 3, 3] "out.nrrd" false [] true (some sampleMeta3) false =
      ⟨none, []⟩ ∧
    handleWriteError
        "Exception thrown in SimpleITK WriteImage: Write: Error writing out.nrrd: access denied"
        "out.nrrd" = some "Cannot write to out.nrrd." ∧
    handleWriteError "some unrelated error" "out.nrrd" = some "some unrelated error" := by
  decide

/-- Claim C4 (code bug): the claim (and the docstring of `write_image`)
say compression is forced on for `.nii.gz` targets.  The condition of
writers.py:57 compares `filepath.suffix` — which is either empty or
begins with a dot, and equals `.gz` for `out.nii.gz` — with the dotless
literal `nii.gz`, so it is never true and the caller's flag is always
passed through unchanged. -/
theorem C4_compression_never_forced :
    (compressionFlag "out.nii.gz" false = false ∧ pathSuffix "out.nii.gz" = ".gz") ∧
    ∀ (fp : String) (c : Bool), compressionFlag fp c = c :=
  ⟨by decide, fun fp c => by
    unfold compressionFlag
    rw [if_neg (pathSuffix_ne_niigz fp)]⟩

/-- Claim C9: with the `metadata` argument left at its default `None`,
`write_image` raises before writing anything — even for a valid
destination — because `metadata["spacing"]` is read unconditionally at
writers.py:44; for every shape `sitk.GetImageFromArray` accepts, the
error is precisely that `TypeError`. -/
theorem C9_metadata_effectively_mandatory (rs : List Nat → List Nat) (codec : CodecOutcome)
    (mt mdd : String) (shape : List Nat) (fp : String) (isDir : Bool)
    (dirFiles : List String) (comp resample : Bool) :
    (write_image rs codec mt mdd shape fp isDir dirFiles comp none resample).error.isSome = true ∧
    (write_image rs codec mt mdd shape fp isDir dirFiles comp none resample).filesWritten = [] ∧
    (2 ≤ shape.length → shape.length ≤ 5 →
      (write_image rs codec mt mdd shape fp isDir dirFiles comp none resample).error =
        some (.typeError "NoneType object is not subscriptable")) := by
  unfold write_image
  by_cases h : shape.length < 2 ∨ 5 < shape.length
  · rw [if_pos h]
    exact ⟨rfl, rfl, fun h2 h5 => absurd h (by omega)⟩
  · rw [if_neg h]
    exact ⟨rfl, rfl, fun _ _ => rfl⟩

/-- Claim C9, witness: a valid single-file destination with `metadata`
omitted. -/
theorem C9_witness :
    (write_image id .success "120000" "20260101" [2, 2] "out.nrrd" false [] true
        none false).error = some (.typeError "NoneType object is not subscriptable") ∧
    (write_image id .success "120000" "20260101" [2, 2] "out.nrrd" false [] true
        none false).filesWritten = [] :=
  ⟨(C9_metadata_effectively_mandatory id .success "120000" "20260101" [2, 2]
      "out.nrrd" false [] true false).2.2 (by decide) (by decide),
   (C9_metadata_effectively_mandatory id .success "120000" "20260101" [2, 2]
      "out.nrrd" false [] true false).2.1⟩

/-- Claim C5 counterexample: the claim quantifies over every existing
directory, but a directory whose own name matches the extension test —
here one named `out.nii` — takes the single-file branch of writers.py:55
before the directory branch is ever considered, so the 3-D validation of
writers.py:69-70 never runs and no `ValueError` is raised for 2-D data:
depending on the codec outcome the call returns normally or raises the
translated `RuntimeError`. -/
theorem C5_counterexample :
    extMatch "out.nii" = true ∧
    (write_image id .success "120000" "20260101" [4, 5] "out.nii" true [] true
        (some sampleMeta2) false).error = none ∧
    write_image id
        (.raised "Exception thrown in SimpleITK WriteImage: Write: Error writing out.nii: is a directory")
        "120000" "20260101" [4, 5] "out.nii" true [] true (some sampleMeta2) false =
      ⟨some (.runtimeError "Cannot write to out.nii."), []⟩ := by decide

/-- Claim C5 as amended: for a destination that is an existing directory
whose final suffix matches no recognized extension (in particular any
extension-less directory name), a data array that sitk accepts
(2 ≤ ndim ≤ 5) but is not exactly 3-dimensional, spacing metadata of the
array's rank, and resampling off, `write_image` raises the dicom
`ValueError` immediately and creates no file. -/
theorem C5_amended_non3d_validation (rs : List Nat → List Nat) (codec : CodecOutcome)
    (mt mdd : String) (shape : List Nat) (fp : String) (dirFiles : List String)
    (comp : Bool) (md : Metadata)
    (hext : extMatch fp = false) (h2 : 2 ≤ shape.length) (h5 : shape.length ≤ 5)
    (hnd : shape.length ≠ 3) (hsp : md.spacing.length = shape.length) :
    write_image rs codec mt mdd shape fp true dirFiles comp (some md) false =
      ⟨some (.valueError
        ("For dicom series, only 3D data is supported. Got " ++ toString shape.length ++ ".")),
       []⟩ := by
  have hg : ¬(shape.length < 2 ∨ 5 < shape.length) := by omega
  simp [write_image, hg, hsp, resolveDestination, hext, hnd]

/-- Claim C5 amended, witness: a 2-D array aimed at the extension-less
directory `outdir`. -/
theorem C5_amended_witness :
    (extMatch "outdir" = false ∧ 2 ≤ ([4, 5] : List Nat).length ∧
      ([4, 5] : List Nat).length ≤ 5 ∧ ([4, 5] : List Nat).length ≠ 3 ∧
      sampleMeta2.spacing.length = ([4, 5] : List Nat).length) ∧
    write_image id .success "120000" "20260101" [4, 5] "outdir" true [] true
        (some sampleMeta2) false =
      ⟨some (.valueError
        ("For dicom series, only 3D data is supported. Got " ++
          toString ([4, 5] : List Nat).length ++ ".")),
       []⟩ :=
  ⟨by decide,
   C5_amended_non3d_validation id .success "120000" "20260101" [4, 5] "outdir" [] true
     sampleMeta2 (by decide) (by decide) (by decide) (by decide) (by decide)⟩

/-- Claim C6 counterexample: the claim says the Instance Number tag
(0020,0013) of slice `i` is the zero-padded representation of `i`,
consistent with the zero-padded index in the file name.  Writing a
one-slice volume to an empty directory produces the file
`IMG-000-000.dcm` whose Instance Number tag is the UNPADDED `"0"`
(writers.py:109 uses `str(idx)`), not the file name's `"000"`. -/
theorem C6_counterexample :
    ((write_image id .success "120000" "20260101" [1, 2, 2] "outdir" true [] true
        (some sampleMeta3) false).filesWritten.getD 0 ⟨"", []⟩).name = "IMG-000-000.dcm" ∧
    ((write_image id .success "120000" "20260101" [1, 2, 2] "outdir" true [] true
        (some sampleMeta3) false).filesWritten.getD 0 ⟨"", []⟩).tags.lookup "0020|0013" =
      some "0" ∧
    ("0" : String) ≠ fmt03 0 := by decide

/-- Claim C6 as amended: the Instance Number tag written for slice `i` is
`str(i)`, the unpadded decimal representation, while the file name uses
the 3-digit zero-padded index; the two strings agree only when the
decimal representation already has at least three digits. -/
theorem C6_amended_instance_number (mt mdd : String) (img : SitkImage) (md : Metadata)
    (cs idx : Nat) (h : idx < (writeDicomSlices mt mdd img md cs).length) :
    ((writeDicomSlices mt mdd img md cs).getD idx ⟨"", []⟩).tags.lookup "0020|0013" =
      some (toString idx) ∧
    ((writeDicomSlices mt mdd img md cs).getD idx ⟨"", []⟩).name =
      "IMG-" ++ fmt03 cs ++ "-" ++ fmt03 idx ++ ".dcm" ∧
    ((toString idx).length < 3 → toString idx ≠ fmt03 idx) := by
  rw [List.getD_eq_getElem _ _ h]
  have hd : idx < img.getDepth := by
    simpa [writeDicomSlices] using h
  refine ⟨?_, ?_, ?_⟩
  · cases hmod : md.modality <;>
      simp [writeDicomSlices, series_tag_values, sliceSpecificTags, hmod,
        instanceNumberTagValue, List.lookup, DICOM_MODALITY_TAG]
  · simp [writeDicomSlices]
  · intro hlt heq
    have h3 : (fmt03 idx).length = 3 := by
      unfold fmt03
      rw [if_pos hlt]
      rw [String.length_append]
      have hmk : (String.mk (List.replicate (3 - (toString idx).length) '0')).length =
          3 - (toString idx).length := by
        show (List.replicate (3 - (toString idx).length) '0').length = _
        simp
      omega
    have := congrArg String.length heq
    omega

/-- Claim C6 amended, witness: slice zero of a one-slice series. -/
theorem C6_amended_witness :
    0 < (writeDicomSlices "120000" "20260101" ⟨[1, 2, 2], [1, 1, 1], none, none⟩
        sampleMeta3 0).length ∧
    ((writeDicomSlices "120000" "20260101" ⟨[1, 2, 2], [1, 1, 1], none, none⟩
        sampleMeta3 0).getD 0 ⟨"", []⟩).tags.lookup "0020|0013" = some (toString 0) :=
  ⟨by decide,
   (C6_amended_instance_number "120000" "20260101" ⟨[1, 2, 2], [1, 1, 1], none, none⟩
      sampleMeta3 0 0 (by decide)).1⟩

/-- Claim C7: a 3-D array of first-axis extent `D` written to an empty
directory (no matching extension, directory exists, spacing of length 3,
no resampling) produces exactly `D` slice files named
`IMG-000-000.dcm` through `IMG-000-<fmt03 (D-1)>.dcm`. -/
theorem C7_slice_files_of_empty_directory (rs : List Nat → List Nat) (codec : CodecOutcome)
    (mt mdd : String) (D h w : Nat) (fp : String) (comp : Bool) (md : Metadata)
    (hext : extMatch fp = false) (hsp : md.spacing.length = 3) :
    (write_image rs codec mt mdd [D, h, w] fp true [] comp (some md) false).error = none ∧
    (write_image rs codec mt mdd [D, h, w] fp true [] comp (some md) false).filesWritten.length
      = D ∧
    (write_image rs codec mt mdd [D, h, w] fp true [] comp (some md)
        false).filesWritten.map SliceFile.name =
      (List.range D).map (fun i => "IMG-000-" ++ fmt03 i ++ ".dcm") := by
  have hpre : (("IMG-" ++ fmt03 0) ++ "-" : String) = "IMG-000-" := by decide
  simp [write_image, hsp, resolveDestination, hext, curr_series, series_in_directory,
    series_in_directory.parseAll, globImgDcm, writeDicomSlices, SitkImage.getDepth, hpre]

/-- Claim C7, witness: a 2-slice volume into the empty directory
`outdir2`. -/
theorem C7_witness :
    (extMatch "outdir2" = false ∧ sampleMeta3.spacing.length = 3) ∧
    (write_image id .success "120000" "20260101" [2, 3, 3] "outdir2" true [] true
        (some sampleMeta3) false).filesWritten.map SliceFile.name =
      (List.range 2).map (fun i => "IMG-000-" ++ fmt03 i ++ ".dcm") :=
  ⟨by decide,
   (C7_slice_files_of_empty_directory id .success "120000" "20260101" 2 3 3 "outdir2" true
      sampleMeta3 (by decide) (by decide)).2.2⟩

/-- Claim C8: a 3-D image whose trailing or leading axis is a singleton
has that axis squeezed away before rendering (the trailing one taking
priority, per plotting.py:74-77); the result is 2-D and is therefore
rendered with the grayscale colormap. -/
theorem C8_channel_squeeze (a b c : Nat) (h : c = 1 ∨ a = 1) :
    plot2d_channelSqueeze [a, b, c] = (if c = 1 then [a, b] else [b, c]) ∧
    (plot2d_channelSqueeze [a, b, c]).length = 2 ∧
    plot2d_cmap [a, b, c] = some "gray" := by
  by_cases hc : c = 1
  · subst hc; simp [plot2d_channelSqueeze, plot2d_cmap]
  · have ha : a = 1 := h.resolve_left hc
    subst ha
    simp [plot2d_channelSqueeze, plot2d_cmap, hc]

/-- Claim C8, witness: a trailing-singleton image of shape 3 x 4 x 1. -/
theorem C8_witness :
    ((1 : Nat) = 1 ∨ (3 : Nat) = 1) ∧
    plot2d_channelSqueeze [3, 4, 1] = [3, 4] ∧
    plot2d_cmap [3, 4, 1] = some "gray" := by
  refine ⟨Or.inl rfl, ?_, (C8_channel_squeeze 3 4 1 (Or.inl rfl)).2.2⟩
  have h := (C8_channel_squeeze 3 4 1 (Or.inl rfl)).1
  simpa using h

/-- Claim C10: with `threshold = 0` the guard `if threshold:` of
plotting.py:166 is falsy, so no masking happens at all and every overlay
value — negative ones included — is passed to `imshow`; with any nonzero
threshold `t`, exactly the values strictly below `t` are masked to
transparent. -/
theorem C10_zero_threshold_disables_masking (t : Rat) (xs : List Rat) :
    (t = 0 → add_2d_overlay t xs = xs.map some) ∧
    (t ≠ 0 → add_2d_overlay t xs = xs.map (fun x => if x < t then none else some x)) := by
  constructor
  · intro h; simp [add_2d_overlay, h]
  · intro h
    simp only [add_2d_overlay, h, if_pos, masked_where, ne_eq, not_false_iff, if_true]
    rw [List.zipWith_map_left, List.zipWith_same]
    simp

/-- Claim C10, witness: a negative value survives threshold 0 and is
masked by threshold 1/10. -/
theorem C10_witness :
    add_2d_overlay 0 [-1, 2] = ([-1, 2] : List Rat).map some ∧
    add_2d_overlay (1 / 10) [-1, 2] =
      ([-1, 2] : List Rat).map (fun x => if x < 1 / 10 then none else some x) :=
  ⟨(C10_zero_threshold_disables_masking 0 [-1, 2]).1 rfl,
   (C10_zero_threshold_disables_masking (1 / 10) [-1, 2]).2 (by norm_num)⟩

end Fexp
